import Mathlib

/-!
Shallow embedding of the studyinuk backend (an Express REST service over a
relational store, `src/server/routes.ts` together with the storage layer in
`src/unnamed/part_000`).  Route handlers are modelled as pure functions from
an explicit database state to a response paired with the next state; where a
handler performs fallible side effects (notification inserts), the outcome of
the effect is passed in as an explicit oracle.  Machine numbers are modelled
as `Nat` / `Int` / `ℚ`; the `Math.round((a / b) * 100)` computations run in
IEEE binary64, modelled exactly by integer arithmetic on dyadic rationals
(53-bit round-to-nearest-even significands), so the model reproduces double
artifacts such as `(23 / 40) * 100 = 57.49999999999999`.
-/

/-- Row of the `users` table (fields relevant to the routes under study). -/
structure User where
  id : String
  email : String
  isAdmin : Bool
  createdAt : Option Int
deriving DecidableEq

/-- Row of the `universities` table. -/
structure University where
  id : Nat
  name : String
deriving DecidableEq

/-- Row of the `courses` table.  The shared schema (README.md line 83)
declares `ieltsOverall` as `decimal("ielts_overall", precision 2, scale 1)`,
a numeric column; its numeric value is modelled as a rational. -/
structure Course where
  id : Nat
  name : String
  faculty : String
  level : String
  universityId : Nat
  ieltsOverall : ℚ
deriving DecidableEq

/-- Row of the `applications` table. -/
structure Application where
  id : Nat
  userId : String
  fullName : String
  email : String
  phone : String
  selectedCourses : List Nat
  additionalNotes : String
  status : String
  createdAt : Option Int
  updatedAt : Option Int
deriving DecidableEq

/-- Row of the `notifications` table. -/
structure Notification where
  id : Nat
  userId : String
  type : String
  title : String
  message : String
  isRead : Bool
deriving DecidableEq

/-- The relational store, with the serial-id counters made explicit. -/
structure DB where
  users : List User
  universities : List University
  courses : List Course
  applications : List Application
  notifications : List Notification
  nextApplicationId : Nat
  nextNotificationId : Nat
deriving DecidableEq

/-- JS `Array.from(new Set(xs))`: first-occurrence deduplication. -/
def jsSetDedup (l : List String) : List String :=
  l.foldl (fun acc x => if x ∈ acc then acc else acc ++ [x]) []

/-- Bit length of a natural number, by fuel-bounded structural recursion so
that the kernel can evaluate it (128 bits cover every quantity arising
here); `nbits n = ⌊log2 n⌋ + 1` for `n ≥ 1` and `nbits 0 = 0`. -/
def bitsAux : Nat → Nat → Nat
  | 0, _ => 0
  | fuel + 1, n => if n = 0 then 0 else bitsAux fuel (n / 2) + 1

def nbits (n : Nat) : Nat := bitsAux 128 n

/-- Round-to-nearest, ties-to-even, of the fraction `p / q` (`q > 0`). -/
def rne (p q : Nat) : Nat :=
  let d := p / q
  let r := p % q
  if 2 * r < q then d
  else if q < 2 * r then d + 1
  else if d % 2 = 0 then d else d + 1

/-- A non-negative dyadic rational `num / 2 ^ k`; every IEEE binary64 value
arising in these routes is one. -/
structure Dyadic where
  num : Nat
  k : Nat
deriving DecidableEq

/-- Binary64 rounding of the non-negative dyadic `n / 2 ^ k`: the significand
is cut to 53 bits, round-to-nearest ties-to-even.  All values arising here
lie well inside the normal range, so underflow and overflow do not occur. -/
def fl64Dyadic (n k : Nat) : Dyadic :=
  let t := nbits n
  if t ≤ 53 then ⟨n, k⟩
  else ⟨rne n (2 ^ (t - 53)) * 2 ^ (t - 53), k⟩

/-- The binary64 quotient `a / b` for naturals that are exactly representable
(`a, b ≤ 2 ^ 53`, `b ≥ 1`): the exact quotient rounded to a 53-bit
significand.  The exponent `⌊log2 (a / b)⌋` is recovered as
`nbits (a * 2 ^ 64 / b) - 1 - 64`. -/
def jsDivDouble (a b : Nat) : Dyadic :=
  if a = 0 then ⟨0, 0⟩
  else
    let e64 := nbits (a * 2 ^ 64 / b) - 1
    if e64 ≤ 116 then ⟨rne (a * 2 ^ (116 - e64)) b, 116 - e64⟩
    else ⟨rne a (b * 2 ^ (e64 - 116)) * 2 ^ (e64 - 116), 0⟩

/-- Binary64 product of a double (given as a dyadic) with the exact constant
100: the exact product is rounded back to a 53-bit significand. -/
def jsMul100Double (d : Dyadic) : Dyadic := fl64Dyadic (d.num * 100) d.k

/-- JS `Math.round` on a non-negative double given as a dyadic: the nearest
integer to its exact value, half toward positive infinity,
`⌊n / 2 ^ k + 1 / 2⌋`. -/
def jsMathRound (d : Dyadic) : Nat := (2 * d.num + 2 ^ d.k) / 2 ^ (d.k + 1)

/-- `Math.round((a / b) * 100)` exactly as JS evaluates it in IEEE binary64
(routes.ts lines 293 and 363 to 364). -/
def jsRoundPct (a b : Nat) : Nat := jsMathRound (jsMul100Double (jsDivDouble a b))

/-- The exact round-half-up percentage `round(100 * a / b)` that the spec
states.  It is a second definition following the spec words, kept to compare
against the binary64 computation `jsRoundPct`, from which it differs: at
`a = 23, b = 40` the doubles give 57 where this gives `round(57.5) = 58`. -/
def exactRoundPct (a b : Nat) : Nat :=
  (2 * (100 * a) + b) / (2 * b)

/-- Result shape of `GET /api/admin/stats` (routes.ts lines 346 to 365). -/
structure AdminStats where
  totalUsers : Nat
  totalApplications : Nat
  totalCourses : Nat
  totalUniversities : Nat
  newUsersThisWeek : Nat
  newApplicationsThisWeek : Nat
  conversionRate : Nat
  finalConversionRate : Nat
deriving DecidableEq

/-- The aggregation performed by `GET /api/admin/stats` (routes.ts lines
333 to 365), after the data has been fetched: `usersWithApplications` and
`usersWithVisaApproved` are `Array.from(new Set(...))` deduplications, and
the two rates are `Math.round((x / y) * 100)` evaluated in binary64, with a
zero guard on the denominator. -/
def computeStats (now : Int) (allUsers : List User) (allApplications : List Application)
    (allCourses : List Course) (allUniversities : List University) : AdminStats :=
  let usersWithApplications := jsSetDedup (allApplications.map fun a => a.userId)
  let usersWithVisaApproved :=
    jsSetDedup ((allApplications.filter fun a => a.status == "Visa Approved").map fun a => a.userId)
  let weekAgo := now - 7 * 24 * 60 * 60 * 1000
  { totalUsers := allUsers.length
    totalApplications := allApplications.length
    totalCourses := allCourses.length
    totalUniversities := allUniversities.length
    newUsersThisWeek :=
      (allUsers.filter fun u =>
        match u.createdAt with
        | none => false
        | some t => weekAgo < t).length
    newApplicationsThisWeek :=
      (allApplications.filter fun a =>
        match a.createdAt with
        | none => false
        | some t => weekAgo < t).length
    conversionRate :=
      if allUsers.length > 0 then
        jsRoundPct usersWithApplications.length allUsers.length
      else 0
    finalConversionRate :=
      if usersWithApplications.length > 0 then
        jsRoundPct usersWithVisaApproved.length usersWithApplications.length
      else 0 }

theorem foldl_dedup_step (l : List String) : ∀ acc : List String, acc.Nodup →
    (l.foldl (fun acc x => if x ∈ acc then acc else acc ++ [x]) acc).Nodup ∧
    (l.foldl (fun acc x => if x ∈ acc then acc else acc ++ [x]) acc).toFinset =
      acc.toFinset ∪ l.toFinset := by
  induction l with
  | nil =>
      intro acc hacc
      exact ⟨hacc, by simp⟩
  | cons x xs ih =>
      intro acc hacc
      rw [List.foldl_cons]
      by_cases hx : x ∈ acc
      · rw [if_pos hx]
        obtain ⟨h1, h2⟩ := ih acc hacc
        refine ⟨h1, ?_⟩
        rw [h2, List.toFinset_cons, Finset.union_insert, Finset.insert_eq_self.mpr]
        exact Finset.mem_union_left _ (List.mem_toFinset.mpr hx)
      · rw [if_neg hx]
        have hacc2 : (acc ++ [x]).Nodup := by
          simp [List.nodup_append, hacc, hx]
        obtain ⟨h1, h2⟩ := ih (acc ++ [x]) hacc2
        refine ⟨h1, ?_⟩
        rw [h2, List.toFinset_append, List.toFinset_cons]
        simp [Finset.insert_eq, Finset.union_assoc]

theorem jsSetDedup_length (l : List String) :
    (jsSetDedup l).length = l.toFinset.card := by
  obtain ⟨h1, h2⟩ := foldl_dedup_step l [] List.nodup_nil
  unfold jsSetDedup
  rw [← List.toFinset_card_of_nodup h1, h2]
  simp

/-- Concrete scenario for the worked example in the spec: ten users. -/
def mkStatUser (i : String) : User :=
  { id := i, email := "", isAdmin := false, createdAt := none }

def c1Users : List User :=
  [mkStatUser "u1", mkStatUser "u2", mkStatUser "u3", mkStatUser "u4", mkStatUser "u5",
   mkStatUser "u6", mkStatUser "u7", mkStatUser "u8", mkStatUser "u9", mkStatUser "u10"]

def mkStatApp (n : Nat) (uid status : String) : Application :=
  { id := n, userId := uid, fullName := "", email := "", phone := "", selectedCourses := [],
    additionalNotes := "", status := status, createdAt := none, updatedAt := none }

/-- Four distinct applicants, two of whom hold a Visa Approved application. -/
def c1Apps : List Application :=
  [mkStatApp 1 "u1" "Visa Approved", mkStatApp 2 "u2" "Visa Approved",
   mkStatApp 3 "u3" "Submitted", mkStatApp 4 "u4" "Submitted"]

/-- Forty users named u0 .. u39, for the rounding counterexample. -/
def rangeUsers (n : Nat) : List User :=
  (List.range n).map fun i => mkStatUser ("u" ++ toString i)

/-- One application each for the first `n` of those users. -/
def rangeApps (n : Nat) : List Application :=
  (List.range n).map fun i => mkStatApp (i + 1) ("u" ++ toString i) "Submitted"

/-- C1 counterexample: with 40 users of whom 23 are distinct applicants, the
binary64 value of `(23 / 40) * 100` is `57.49999999999999`, just below the
exact `57.5`, so the endpoint returns `conversionRate = 57` while the
claimed exact formula `round(100 * 23 / 40)` gives 58. -/
theorem computeStats_round_counterexample :
    (computeStats 0 (rangeUsers 40) (rangeApps 23) [] []).conversionRate = 57 ∧
    exactRoundPct 23 40 = 58 := by
  exact ⟨by decide, by decide⟩

/-- C1 amended: `computeStats` returns `conversionRate` as `Math.round`
applied to the binary64 value of `(a / b) * 100`, where `a` is the number of
distinct users holding at least one application and `b` the number of all
users (0 when there are no users), and `finalConversionRate` likewise with
the distinct Visa Approved applicants over the distinct applicants (0 when
there are no applicants).  The binary64 value can differ from the exact
`round(100 * a / b)` (23 of 40 gives 57, not 58).  On 10 users with 4
distinct applicants of whom 2 have a Visa Approved application it returns
40 and 50, as the spec example states. -/
theorem computeStats_conversion_rates (now : Int) (users : List User)
    (apps : List Application) (cs : List Course) (us : List University) :
    ((computeStats now users apps cs us).conversionRate =
      if users.length > 0 then
        jsRoundPct ((apps.map fun a => a.userId).toFinset.card) users.length
      else 0) ∧
    ((computeStats now users apps cs us).finalConversionRate =
      if ((apps.map fun a => a.userId).toFinset.card) > 0 then
        jsRoundPct
          (((apps.filter fun a => a.status == "Visa Approved").map fun a => a.userId).toFinset.card)
          ((apps.map fun a => a.userId).toFinset.card)
      else 0) ∧
    (computeStats 0 c1Users c1Apps [] []).conversionRate = 40 ∧
    (computeStats 0 c1Users c1Apps [] []).finalConversionRate = 50 := by
  refine ⟨?_, ?_, by decide, by decide⟩
  · simp only [computeStats, jsSetDedup_length]
  · simp only [computeStats, jsSetDedup_length]

/-- HTTP response outcome of a route handler: `ok` carries the JSON payload,
the other constructors stand for the 400 / 403 / 404 / 500 replies. -/
inductive Response (α : Type) where
  | ok : α → Response α
  | badRequest : Response α
  | forbidden : Response α
  | notFound : Response α
  | error : Response α
deriving DecidableEq

/-- A storage-layer call performed by a handler, recorded in execution order. -/
inductive StorageOp where
  | getUser : String → StorageOp
  | getUsers : StorageOp
  | getAllApplications : StorageOp
  | getCourses : StorageOp
  | getUniversities : StorageOp
deriving DecidableEq

/-- `storage.getUser`: first row of `users` whose id matches. -/
def DB.getUser (db : DB) (uid : String) : Option User :=
  db.users.find? fun u => u.id == uid

/-- The admin test `!currentUser?.isAdmin` used by every admin route, with
the negation removed: `true` exactly when a stored record exists and carries
the admin flag. -/
def isAdminUser : Option User → Bool
  | some u => u.isAdmin
  | none => false

/-- `storage.getCourseById`: the course row left-joined with its university
(part_000 lines 213 to 226). -/
def DB.getCourseById (db : DB) (cid : Nat) : Option (Course × Option University) :=
  (db.courses.find? fun c => c.id == cid).map fun c =>
    (c, db.universities.find? fun u => u.id == c.universityId)

/-- `storage.createNotification`: insert with a fresh serial id, returning
the created row (part_000 lines 349 to 354); every call site passes
`isRead: false`. -/
def DB.createNotification (db : DB) (userId ty title message : String) :
    Notification × DB :=
  let n : Notification :=
    { id := db.nextNotificationId, userId := userId, type := ty, title := title,
      message := message, isRead := false }
  (n, { db with notifications := db.notifications ++ [n],
                nextNotificationId := db.nextNotificationId + 1 })

/-- `storage.markNotificationAsRead`: `UPDATE notifications SET isRead = true
WHERE id = nid` (part_000 lines 356 to 361); an update matching no row is
not an error. -/
def DB.markNotificationAsRead (db : DB) (nid : Nat) : DB :=
  { db with notifications := db.notifications.map fun n =>
      if n.id == nid then { n with isRead := true } else n }

/-- `storage.updateApplicationStatus`: `UPDATE applications SET status,
updatedAt = now WHERE id = aid` (part_000 lines 331 to 338). -/
def DB.updateApplicationStatus (db : DB) (aid : Nat) (status : String) (now : Int) : DB :=
  { db with applications := db.applications.map fun a =>
      if a.id == aid then { a with status := status, updatedAt := some now } else a }

/-- Payload of `POST /api/applications`: the caller-supplied request body.
Its `status` field, if supplied, is discarded by the route. -/
structure ApplicationBody where
  fullName : String
  email : String
  phone : String
  selectedCourses : List Nat
  additionalNotes : String
  status : Option String
deriving DecidableEq

/-- The value handed to `insertApplicationSchema.parse`, built by the spread
`{ ...req.body, userId, status: "Submitted" }` (routes.ts lines 129 to 133):
the two trailing fields override anything in the body. -/
structure ApplicationData where
  userId : String
  fullName : String
  email : String
  phone : String
  selectedCourses : List Nat
  additionalNotes : String
  status : String
deriving DecidableEq

def buildSubmission (uid : String) (body : ApplicationBody) : ApplicationData :=
  { userId := uid, fullName := body.fullName, email := body.email, phone := body.phone,
    selectedCourses := body.selectedCourses, additionalNotes := body.additionalNotes, status := "Submitted" }

/-- `insertApplicationSchema.parse`: the schema is
`createInsertSchema(applications).omit({ id, createdAt, updatedAt })` over
the applications table (README.md lines 122 to 133 and 303 to 307).  It
checks only the shape of the value — strings for the varchar columns, empty
strings included, and a number array for `selectedCourses` — and passes
every field value through unchanged; in particular `status` is not among the
omitted keys, so the value the route supplies survives.  A typed
`ApplicationData` is shape-correct by construction, so the parse always
succeeds with the value unchanged (`none` would model the throw on an
ill-shaped body, which cannot arise here). -/
def insertApplicationSchemaParse (d : ApplicationData) : Option ApplicationData :=
  some d

/-- `storage.createApplication`: insert with a fresh serial id and creation
timestamp, returning the created row (part_000 lines 289 to 292). -/
def DB.createApplication (db : DB) (now : Int) (d : ApplicationData) :
    Application × DB :=
  let a : Application :=
    { id := db.nextApplicationId, userId := d.userId, fullName := d.fullName,
      email := d.email, phone := d.phone, selectedCourses := d.selectedCourses,
      additionalNotes := d.additionalNotes, status := d.status, createdAt := some now, updatedAt := some now }
  (a, { db with applications := db.applications ++ [a],
                nextApplicationId := db.nextApplicationId + 1 })

def genericSubmitMessage (appId : Nat) : String :=
  "Your application #" ++ toString appId ++
    " has been submitted. A counsellor will contact you within 6 working hours."

/-- The notification message built by `POST /api/applications` (routes.ts
lines 138 to 152): enhanced with course and university names when the first
selected course resolves and has a university, generic otherwise (no course
selected, course missing, or course lookup failing). -/
def submitNotificationMessage (db : DB) (appId : Nat) (selected : List Nat) : String :=
  match selected with
  | [] => genericSubmitMessage appId
  | cid :: _ =>
    match db.getCourseById cid with
    | some (c, some u) =>
        "Your application to \"" ++ u.name ++ "\" for " ++ c.name ++
          " has been submitted. A counsellor will contact you within 6 working hours."
    | _ => genericSubmitMessage appId

/-- `POST /api/applications` (routes.ts lines 126 to 172).  `notifOk` is the
outcome of the notification insert; the inner try/catch swallows its failure,
so the created application is returned either way. -/
def submitApplicationHandler (uid : String) (body : ApplicationBody) (now : Int)
    (notifOk : Bool) (db : DB) : Response Application × DB :=
  match insertApplicationSchemaParse (buildSubmission uid body) with
  | none => (.error, db)
  | some d =>
    let p := db.createApplication now d
    if notifOk then
      let q := p.2.createNotification uid "application" "Application Submitted Successfully"
        (submitNotificationMessage p.2 p.1.id d.selectedCourses)
      (.ok p.1, q.2)
    else (.ok p.1, p.2)

/-- The course descriptor built by the status-update route (routes.ts lines
478 to 485): course name plus university when both resolve, bare course name
without its university, and the fallback "your application" otherwise. -/
def statusCourseInfo (db : DB) (application : Application) : String :=
  match application.selectedCourses with
  | [] => "your application"
  | cid :: _ =>
    match db.courses.find? (fun c => c.id == cid) with
    | none => "your application"
    | some course =>
      match db.universities.find? (fun u => u.id == course.universityId) with
      | none => course.name
      | some university => course.name ++ " at " ++ university.name

/-- `PATCH /api/admin/applications/:id/status` (routes.ts lines 444 to 505).
`reqStatus = none` models an absent body field; the empty string is the other
falsy value of `!status`.  `notifOk` is the outcome of the notification
insert, which here is not caught separately: its failure reaches the outer
catch and yields a 500, after the status update has already been persisted. -/
def updateStatusHandler (uid : String) (appId : Nat) (reqStatus : Option String)
    (now : Int) (notifOk : Bool) (db : DB) : Response Application × DB :=
  if isAdminUser (db.getUser uid) then
    match reqStatus with
    | none => (.badRequest, db)
    | some status =>
      if status = "" then (.badRequest, db)
      else
        match db.applications.find? (fun a => a.id == appId) with
        | none => (.notFound, db)
        | some application =>
          let db1 := db.updateApplicationStatus appId status now
          let updatedApplication : Application :=
            { application with status := status, updatedAt := some now }
          if notifOk then
            let q := db1.createNotification application.userId "application"
              "Application Status Updated"
              ("Your application status for " ++ statusCourseInfo db1 application ++
                " has been updated to: " ++ status)
            (.ok updatedApplication, q.2)
          else (.error, db1)
  else (.forbidden, db)

/-- `PATCH /api/notifications/:id/read` (routes.ts lines 235 to 244): the
route always replies `{ success: true }` once the update statement runs. -/
def markReadHandler (nid : Nat) (db : DB) : Response Bool × DB :=
  (.ok true, db.markNotificationAsRead nid)

/-- The notification rows the broadcast loop inserts for a target list,
starting from a given serial id. -/
def broadcastRecords (ty title msg : String) : Nat → List String → List Notification
  | _, [] => []
  | nextId, u :: rest =>
      { id := nextId, userId := u, type := ty, title := title, message := msg,
        isRead := false } :: broadcastRecords ty title msg (nextId + 1) rest

/-- The `for (const user of targetUsers)` loop of `POST /api/admin/notifications`
(routes.ts lines 537 to 548): creates one notification per target in order;
an insert failure (oracle `false` at that position) aborts the loop, keeping
the rows already inserted.  Returns whether the loop completed, the number of
notifications pushed, and the resulting state. -/
def broadcastLoop (ty title msg : String) (oracle : Nat → Bool) :
    Nat → DB → List String → Bool × Nat × DB
  | _, db, [] => (true, 0, db)
  | i, db, u :: rest =>
    if oracle i then
      let p := db.createNotification u ty title msg
      let r := broadcastLoop ty title msg oracle (i + 1) p.2 rest
      (r.1, r.2.1 + 1, r.2.2)
    else (false, 0, db)

/-- `POST /api/admin/notifications` (routes.ts lines 508 to 556): admin
check, required-field check, target selection (all users when `userIds` is
absent or empty), then the fan-out loop.  On completion the response reports
the count of created notifications; a failure inside the loop reaches the
catch block, which replies 500 without a count. -/
def adminNotificationsHandler (uid : String) (userIds : Option (List String))
    (ty title msg : String) (oracle : Nat → Bool) (db : DB) : Response Nat × DB :=
  if isAdminUser (db.getUser uid) then
    if ty = "" ∨ title = "" ∨ msg = "" then (.badRequest, db)
    else
      let targets : List String :=
        match userIds with
        | none => db.users.map fun u => u.id
        | some [] => db.users.map fun u => u.id
        | some ids => ids
      let r := broadcastLoop ty title msg oracle 0 db targets
      if r.1 then (.ok r.2.1, r.2.2) else (.error, r.2.2)
  else (.forbidden, db)

/-- `GET /api/admin/stats` (routes.ts lines 305 to 373), with the storage
calls it performs recorded in order. -/
def adminStatsHandler (uid : String) (now : Int) (db : DB) :
    Response AdminStats × List StorageOp :=
  if isAdminUser (db.getUser uid) then
    (.ok (computeStats now db.users db.applications db.courses db.universities),
     [.getUser uid, .getUsers, .getAllApplications, .getCourses, .getUniversities])
  else (.forbidden, [.getUser uid])

/-- `GET /api/admin/users` (routes.ts lines 375 to 387). -/
def adminUsersHandler (uid : String) (db : DB) :
    Response (List User) × List StorageOp :=
  if isAdminUser (db.getUser uid) then
    (.ok db.users, [.getUser uid, .getUsers])
  else (.forbidden, [.getUser uid])

/-- `GET /api/admin/applications` (routes.ts lines 389 to 401). -/
def adminApplicationsHandler (uid : String) (db : DB) :
    Response (List Application) × List StorageOp :=
  if isAdminUser (db.getUser uid) then
    (.ok db.applications, [.getUser uid, .getAllApplications])
  else (.forbidden, [.getUser uid])

/-- Result shape of `GET /api/admin/analytics` (routes.ts lines 424 to 434). -/
structure AnalyticsUserPoint where
  date : Option Int
  count : Nat
deriving DecidableEq

structure AnalyticsAppPoint where
  date : Option Int
  count : Nat
  status : String
deriving DecidableEq

structure Analytics where
  userRegistrations : List AnalyticsUserPoint
  applicationSubmissions : List AnalyticsAppPoint
deriving DecidableEq

/-- `GET /api/admin/analytics` (routes.ts lines 415 to 441). -/
def adminAnalyticsHandler (uid : String) (db : DB) :
    Response Analytics × List StorageOp :=
  if isAdminUser (db.getUser uid) then
    (.ok { userRegistrations := db.users.map fun u => { date := u.createdAt, count := 1 }
           applicationSubmissions := db.applications.map fun a =>
             { date := a.createdAt, count := 1, status := a.status } },
     [.getUser uid, .getUsers, .getAllApplications])
  else (.forbidden, [.getUser uid])

/-- Result shape of `GET /api/admin-dashboard-stats` (routes.ts lines 286
to 294). -/
structure DashboardStats where
  totalUsers : Nat
  totalApplications : Nat
  totalCourses : Nat
  totalUniversities : Nat
  newUsersThisWeek : Nat
  newApplicationsThisWeek : Nat
  conversionRate : Nat
deriving DecidableEq

/-- `GET /api/admin-dashboard-stats` (routes.ts lines 269 to 302): behind
`requireAuth` only; the authenticated caller id is logged but never used, no
admin check is made, the weekly deltas are the literal 0, and the conversion
rate is `Math.round((applications / users) * 100)` in binary64. -/
def adminDashboardStatsHandler (uid : String) (db : DB) :
    Response DashboardStats × List StorageOp :=
  (.ok { totalUsers := db.users.length
         totalApplications := db.applications.length
         totalCourses := db.courses.length
         totalUniversities := db.universities.length
         newUsersThisWeek := 0
         newApplicationsThisWeek := 0
         conversionRate :=
           if db.users.length > 0 then
             jsRoundPct db.applications.length db.users.length
           else 0 },
   [.getUsers, .getAllApplications, .getCourses, .getUniversities])

/-- Query-string filters of `GET /api/courses`. -/
structure CourseFilters where
  search : Option String
  faculty : Option String
  level : Option String
  ieltsScore : Option String
deriving DecidableEq

/-- SQL `ilike %pat%`: case-insensitive substring test (for the nonempty
patterns the route can produce). -/
def ilikeContains (hay pat : String) : Bool :=
  (hay.toLower.splitOn pat.toLower).length != 1

/-- Splits a character list at the first dot: integer digits paired with the
fractional digits when a dot is present. -/
def splitAtDot : List Char → List Char × Option (List Char)
  | [] => ([], none)
  | c :: cs =>
      if c = '.' then ([], some cs)
      else
        let r := splitAtDot cs
        (c :: r.1, r.2)

/-- Value of a decimal digit string. -/
def decDigitsVal (cs : List Char) : Nat :=
  cs.foldl (fun n c => 10 * n + (c.toNat - 48)) 0

/-- The shared schema (README.md line 83) declares `courses.ieltsOverall`
as `decimal("ielts_overall", precision 2, scale 1)`, a numeric column, so
the SQL comparison produced by
`eq(courses.ieltsOverall, parseFloat(s).toString())` (part_000 lines 195 to
199) compares numeric values.  `parseDecimal` is the rational value of a
plain decimal numeral, which is the value JS `parseFloat` assigns to such a
string and which survives the `toString` round trip and the numeric cast;
`none` models a string outside that domain, which matches no row. -/
def parseDecimal (s : String) : Option ℚ :=
  match splitAtDot s.toList with
  | (ip, none) =>
      if ip ≠ [] ∧ ip.all Char.isDigit then some ((decDigitsVal ip : ℚ)) else none
  | (ip, some fp) =>
      if ip ≠ [] ∧ ip.all Char.isDigit ∧ fp.all Char.isDigit then
        some ((decDigitsVal ip : ℚ) + (decDigitsVal fp : ℚ) / ((10 : ℚ) ^ fp.length))
      else none

/-- The WHERE clause assembled by `storage.getCourses` (part_000 lines 175
to 205): each filter contributes a condition only when supplied, nonempty
(JS truthiness) and not the corresponding "All ..." sentinel. -/
def courseFilterCond (filters : CourseFilters) (c : Course) : Bool :=
  (match filters.search with
   | none => true
   | some s => if s ≠ "" then ilikeContains c.name s else true) &&
  (match filters.faculty with
   | none => true
   | some f => if f ≠ "" ∧ f ≠ "All Faculties" then c.faculty == f else true) &&
  (match filters.level with
   | none => true
   | some l => if l ≠ "" ∧ l ≠ "All Levels" then c.level == l else true) &&
  (match filters.ieltsScore with
   | none => true
   | some s =>
     if s ≠ "" ∧ s ≠ "All IELTS Scores" then
       match parseDecimal s with
       | some q => c.ieltsOverall == q
       | none => false
     else true)

/-- `storage.getCourses`: filtered catalog rows, each left-joined with its
university (part_000 lines 175 to 211). -/
def getCourses (db : DB) (filters : CourseFilters) : List (Course × Option University) :=
  (db.courses.filter (courseFilterCond filters)).map fun c =>
    (c, db.universities.find? fun u => u.id == c.universityId)

/-- The empty store with serial counters at 1. -/
def emptyDB : DB :=
  { users := [], universities := [], courses := [], applications := [],
    notifications := [], nextApplicationId := 1, nextNotificationId := 1 }

theorem insertApplicationSchemaParse_eq {d e : ApplicationData}
    (h : insertApplicationSchemaParse d = some e) : e = d := by
  unfold insertApplicationSchemaParse at h
  exact (Option.some.inj h).symm

/-- The application row persisted by a successful submission. -/
def submittedApplication (db : DB) (now : Int) (d : ApplicationData) : Application :=
  { id := db.nextApplicationId, userId := d.userId, fullName := d.fullName,
    email := d.email, phone := d.phone, selectedCourses := d.selectedCourses,
    additionalNotes := d.additionalNotes, status := d.status, createdAt := some now, updatedAt := some now }

/-- The notification row a successful submission creates for the caller. -/
def submitNotification (db : DB) (uid : String) (d : ApplicationData) : Notification :=
  { id := db.nextNotificationId, userId := uid, type := "application",
    title := "Application Submitted Successfully",
    message := submitNotificationMessage db db.nextApplicationId d.selectedCourses,
    isRead := false }

theorem submitApplicationHandler_spec (uid : String) (body : ApplicationBody)
    (now : Int) (notifOk : Bool) (db : DB) (d : ApplicationData)
    (h : insertApplicationSchemaParse (buildSubmission uid body) = some d) :
    submitApplicationHandler uid body now notifOk db =
      (.ok (submittedApplication db now d),
       if notifOk then
         { db with applications := db.applications ++ [submittedApplication db now d],
                   nextApplicationId := db.nextApplicationId + 1,
                   notifications := db.notifications ++ [submitNotification db uid d],
                   nextNotificationId := db.nextNotificationId + 1 }
       else
         { db with applications := db.applications ++ [submittedApplication db now d],
                   nextApplicationId := db.nextApplicationId + 1 }) := by
  unfold submitApplicationHandler
  rw [h]
  cases notifOk <;> rfl

/-- C2: whenever `POST /api/applications` accepts a submission, the persisted
application has status "Submitted", whatever status value the request body
supplied: the spread building the parsed value overrides the caller field. -/
theorem submit_forces_submitted_status (uid : String) (body : ApplicationBody)
    (now : Int) (notifOk : Bool) (db : DB) (app : Application) (db2 : DB)
    (h : submitApplicationHandler uid body now notifOk db = (.ok app, db2)) :
    app.status = "Submitted" ∧ app ∈ db2.applications := by
  cases hp : insertApplicationSchemaParse (buildSubmission uid body) with
  | none =>
      unfold submitApplicationHandler at h
      rw [hp] at h
      simp only [Prod.mk.injEq] at h
      exact absurd h.1 (by simp)
  | some d =>
      rw [submitApplicationHandler_spec uid body now notifOk db d hp] at h
      simp only [Prod.mk.injEq, Response.ok.injEq] at h
      obtain ⟨h1, h2⟩ := h
      have hd := insertApplicationSchemaParse_eq hp
      constructor
      · rw [← h1, hd]
        rfl
      · rw [← h2, ← h1]
        cases notifOk <;> simp [List.mem_append]

/-- Concrete body for the C2 witness: the caller tries to smuggle in the
status "Visa Approved". -/
def c2Body : ApplicationBody :=
  { fullName := "Ada", email := "ada@example.com", phone := "1", selectedCourses := [],
    additionalNotes := "", status := some "Visa Approved" }

def c2App : Application :=
  { id := 1, userId := "u1", fullName := "Ada", email := "ada@example.com", phone := "1",
    selectedCourses := [], additionalNotes := "", status := "Submitted",
    createdAt := some 0, updatedAt := some 0 }

def c2Db : DB :=
  { users := [], universities := [], courses := [], applications := [c2App],
    notifications :=
      [{ id := 1, userId := "u1", type := "application",
         title := "Application Submitted Successfully",
         message := "Your application #1 has been submitted. A counsellor will contact you within 6 working hours.",
         isRead := false }],
    nextApplicationId := 2, nextNotificationId := 2 }

theorem submit_forces_submitted_status_witness :
    submitApplicationHandler "u1" c2Body 0 true emptyDB = (.ok c2App, c2Db) ∧
    c2App.status = "Submitted" ∧ c2App ∈ c2Db.applications :=
  ⟨by decide,
   submit_forces_submitted_status "u1" c2Body 0 true emptyDB c2App c2Db (by decide)⟩

/-- C3: an admin status update on an application id that resolves to no
application replies 404 and leaves the store untouched: no status change is
persisted and no notification is created. -/
theorem updateStatus_notFound (uid : String) (appId : Nat) (status : String)
    (now : Int) (notifOk : Bool) (db : DB)
    (hadmin : isAdminUser (db.getUser uid) = true)
    (hstatus : status ≠ "")
    (hmiss : db.applications.find? (fun a => a.id == appId) = none) :
    updateStatusHandler uid appId (some status) now notifOk db = (.notFound, db) := by
  simp [updateStatusHandler, hadmin, hstatus, hmiss]

def adminUserRec : User :=
  { id := "adm", email := "adm@example.com", isAdmin := true, createdAt := none }

def c3Db : DB :=
  { users := [adminUserRec], universities := [], courses := [], applications := [],
    notifications := [], nextApplicationId := 1, nextNotificationId := 1 }

theorem updateStatus_notFound_witness :
    (isAdminUser (c3Db.getUser "adm") = true ∧ ("Visa Approved" : String) ≠ "" ∧
      c3Db.applications.find? (fun a => a.id == 7) = none) ∧
    updateStatusHandler "adm" 7 (some "Visa Approved") 0 true c3Db = (.notFound, c3Db) :=
  ⟨⟨by decide, by decide, by decide⟩,
   updateStatus_notFound "adm" 7 "Visa Approved" 0 true c3Db (by decide) (by decide) (by decide)⟩

/-- C10: when the application exists and the status update succeeds but the
subsequent notification insert fails, the route replies 500 while the new
status and the refreshed update timestamp remain persisted (the update is not
rolled back), and no notification is stored. -/
theorem updateStatus_no_rollback (uid : String) (appId : Nat) (status : String)
    (now : Int) (db : DB) (application : Application)
    (hadmin : isAdminUser (db.getUser uid) = true)
    (hstatus : status ≠ "")
    (hfind : db.applications.find? (fun a => a.id == appId) = some application) :
    updateStatusHandler uid appId (some status) now false db =
      (.error, db.updateApplicationStatus appId status now) ∧
    (db.updateApplicationStatus appId status now).applications =
      db.applications.map (fun a =>
        if a.id == appId then { a with status := status, updatedAt := some now } else a) ∧
    (db.updateApplicationStatus appId status now).notifications = db.notifications := by
  refine ⟨?_, rfl, rfl⟩
  simp [updateStatusHandler, hadmin, hstatus, hfind]

def c10App : Application :=
  { id := 7, userId := "u1", fullName := "Ada", email := "ada@example.com", phone := "1",
    selectedCourses := [], additionalNotes := "", status := "Submitted",
    createdAt := some 0, updatedAt := some 0 }

def c10Db : DB :=
  { users := [adminUserRec, mkStatUser "u1"], universities := [], courses := [],
    applications := [c10App], notifications := [],
    nextApplicationId := 8, nextNotificationId := 1 }

theorem updateStatus_no_rollback_witness :
    (isAdminUser (c10Db.getUser "adm") = true ∧ ("Visa Approved" : String) ≠ "" ∧
      c10Db.applications.find? (fun a => a.id == 7) = some c10App) ∧
    (updateStatusHandler "adm" 7 (some "Visa Approved") 5 false c10Db =
      (.error, c10Db.updateApplicationStatus 7 "Visa Approved" 5) ∧
    (c10Db.updateApplicationStatus 7 "Visa Approved" 5).applications =
      c10Db.applications.map (fun a =>
        if a.id == 7 then { a with status := "Visa Approved", updatedAt := some 5 } else a) ∧
    (c10Db.updateApplicationStatus 7 "Visa Approved" 5).notifications = c10Db.notifications) :=
  ⟨⟨by decide, by decide, by decide⟩,
   updateStatus_no_rollback "adm" 7 "Visa Approved" 5 c10Db c10App
     (by decide) (by decide) (by decide)⟩

def c5Db : DB :=
  { users := [mkStatUser "u1"], universities := [], courses := [], applications := [],
    notifications :=
      [{ id := 1, userId := "u1", type := "application", title := "t",
         message := "m", isRead := false }],
    nextApplicationId := 1, nextNotificationId := 2 }

/-- C5 counterexample: in a store whose only notification has id 1, marking
the non-existent id 5 as read replies success and leaves the store unchanged;
the route never produces Not-Found, contradicting the claim that a
non-existent id reports Not-Found. -/
theorem markRead_missing_id_no_notFound :
    markReadHandler 5 c5Db = (.ok true, c5Db) ∧
    (markReadHandler 5 c5Db).1 ≠ Response.notFound := by
  exact ⟨by decide, by decide⟩

theorem markRead_map_idem (nid : Nat) (l : List Notification) :
    (l.map (fun n => if n.id == nid then { n with isRead := true } else n)).map
        (fun n => if n.id == nid then { n with isRead := true } else n) =
      l.map (fun n => if n.id == nid then { n with isRead := true } else n) := by
  rw [List.map_map]
  apply List.map_congr_left
  intro a _
  by_cases h : a.id == nid
  · simp [Function.comp, h]
  · simp [Function.comp, h]

/-- C5 amended: `markRead` always replies success, for existing and
non-existent ids alike (a missing id is not reported as Not-Found); it sets
the read flag on every notification with the given id, it is idempotent, and
it is a no-op on a store where every notification with that id is already
read. -/
theorem markRead_amended (nid : Nat) (db : DB) :
    (markReadHandler nid db).1 = .ok true ∧
    (markReadHandler nid db).2.notifications =
      db.notifications.map (fun n => if n.id == nid then { n with isRead := true } else n) ∧
    markReadHandler nid (markReadHandler nid db).2 = markReadHandler nid db ∧
    ((∀ n ∈ db.notifications, n.id = nid → n.isRead = true) →
      (markReadHandler nid db).2 = db) := by
  refine ⟨rfl, rfl, ?_, ?_⟩
  · dsimp only [markReadHandler, DB.markNotificationAsRead]
    rw [markRead_map_idem]
  · intro hall
    dsimp only [markReadHandler, DB.markNotificationAsRead]
    have hmap : db.notifications.map
        (fun n => if n.id == nid then { n with isRead := true } else n) = db.notifications := by
      calc db.notifications.map (fun n => if n.id == nid then { n with isRead := true } else n)
          = db.notifications.map id := by
            apply List.map_congr_left
            intro a ha
            by_cases h : a.id == nid
            · have hid : a.id = nid := by simpa using h
              have hread : a.isRead = true := hall a ha hid
              simp only [h, if_true, id]
              cases a
              simp_all
            · simp [h]
        _ = db.notifications := List.map_id db.notifications
    rw [hmap]

theorem markRead_amended_witness :
    (markReadHandler 1 c5Db).1 = .ok true ∧
    (markReadHandler 1 c5Db).2.notifications =
      c5Db.notifications.map (fun n => if n.id == 1 then { n with isRead := true } else n) ∧
    markReadHandler 1 (markReadHandler 1 c5Db).2 = markReadHandler 1 c5Db ∧
    ((∀ n ∈ c5Db.notifications, n.id = 1 → n.isRead = true) →
      (markReadHandler 1 c5Db).2 = c5Db) :=
  markRead_amended 1 c5Db

/-- C4: every submission attempts exactly one notification for the
submitting user; when the insert succeeds exactly that one row is appended,
addressed to the caller; when it fails the application is still persisted and
returned successfully with the notifications untouched; and the message falls
back to the generic form when no course is selected or the first selected
course does not resolve. -/
theorem submit_notification_best_effort (uid : String) (body : ApplicationBody)
    (now : Int) (notifOk : Bool) (db : DB) :
    (submitApplicationHandler uid body now notifOk db).1 =
      .ok (submittedApplication db now (buildSubmission uid body)) ∧
    (submitApplicationHandler uid body now notifOk db).2.applications =
      db.applications ++ [submittedApplication db now (buildSubmission uid body)] ∧
    (notifOk = true →
      (submitApplicationHandler uid body now notifOk db).2.notifications =
        db.notifications ++ [submitNotification db uid (buildSubmission uid body)] ∧
      (submitNotification db uid (buildSubmission uid body)).userId = uid) ∧
    (notifOk = false →
      (submitApplicationHandler uid body now notifOk db).2.notifications =
        db.notifications) ∧
    (body.selectedCourses = [] →
      (submitNotification db uid (buildSubmission uid body)).message =
        genericSubmitMessage db.nextApplicationId) ∧
    (∀ cid rest, body.selectedCourses = cid :: rest → db.getCourseById cid = none →
      (submitNotification db uid (buildSubmission uid body)).message =
        genericSubmitMessage db.nextApplicationId) := by
  rw [submitApplicationHandler_spec uid body now notifOk db (buildSubmission uid body) rfl]
  refine ⟨rfl, ?_, ?_, ?_, ?_, ?_⟩
  · cases notifOk <;> rfl
  · intro hok
    subst hok
    exact ⟨rfl, rfl⟩
  · intro hko
    subst hko
    rfl
  · intro hsel
    simp [submitNotification, submitNotificationMessage, buildSubmission, hsel]
  · intro cid rest hsel hnone
    simp [submitNotification, submitNotificationMessage, buildSubmission, hsel, hnone]

/-- Concrete body for the C4 witness: one selected course id that resolves to
no course, so the generic message is used. -/
def c4Body : ApplicationBody :=
  { fullName := "Ada", email := "ada@example.com", phone := "1", selectedCourses := [42],
    additionalNotes := "", status := none }

theorem submit_notification_best_effort_witness :
    (submitApplicationHandler "u1" c4Body 0 true emptyDB).1 =
      .ok (submittedApplication emptyDB 0 (buildSubmission "u1" c4Body)) ∧
    (submitApplicationHandler "u1" c4Body 0 true emptyDB).2.applications =
      emptyDB.applications ++ [submittedApplication emptyDB 0 (buildSubmission "u1" c4Body)] ∧
    (true = true →
      (submitApplicationHandler "u1" c4Body 0 true emptyDB).2.notifications =
        emptyDB.notifications ++ [submitNotification emptyDB "u1" (buildSubmission "u1" c4Body)] ∧
      (submitNotification emptyDB "u1" (buildSubmission "u1" c4Body)).userId = "u1") ∧
    (true = false →
      (submitApplicationHandler "u1" c4Body 0 true emptyDB).2.notifications =
        emptyDB.notifications) ∧
    (c4Body.selectedCourses = [] →
      (submitNotification emptyDB "u1" (buildSubmission "u1" c4Body)).message =
        genericSubmitMessage emptyDB.nextApplicationId) ∧
    (∀ cid rest, c4Body.selectedCourses = cid :: rest →
      emptyDB.getCourseById cid = none →
      (submitNotification emptyDB "u1" (buildSubmission "u1" c4Body)).message =
        genericSubmitMessage emptyDB.nextApplicationId) :=
  submit_notification_best_effort "u1" c4Body 0 true emptyDB

def c6Db : DB :=
  { users := [adminUserRec, mkStatUser "u1", mkStatUser "u2"], universities := [],
    courses := [], applications := [], notifications := [],
    nextApplicationId := 1, nextNotificationId := 1 }

/-- Insert oracle that succeeds only on the first attempt. -/
def c6Oracle : Nat → Bool := fun i => i == 0

/-- C6 counterexample: broadcasting to all three users with the second insert
failing leaves exactly one notification persisted (a partial failure), yet
the response is the generic 500, which reports no count at all: it is not
the success reply carrying the count 1 of creations that succeeded. -/
theorem broadcast_mid_loop_failure_no_count :
    adminNotificationsHandler "adm" none "general" "T" "M" c6Oracle c6Db =
      (.error,
       { c6Db with
         notifications := [{ id := 1, userId := "adm", type := "general", title := "T",
                             message := "M", isRead := false }],
         nextNotificationId := 2 }) ∧
    (adminNotificationsHandler "adm" none "general" "T" "M" c6Oracle c6Db).1 ≠ .ok 1 := by
  exact ⟨by decide, by decide⟩

theorem broadcastLoop_all_ok (ty title msg : String) (oracle : Nat → Bool)
    (targets : List String) : ∀ (i : Nat) (db : DB), (∀ j, oracle j = true) →
    broadcastLoop ty title msg oracle i db targets =
      (true, targets.length,
       { db with
         notifications := db.notifications ++
           broadcastRecords ty title msg db.nextNotificationId targets,
         nextNotificationId := db.nextNotificationId + targets.length }) := by
  induction targets with
  | nil =>
      intro i db h
      simp [broadcastLoop, broadcastRecords]
  | cons u rest ih =>
      intro i db h
      rw [broadcastLoop, h i, if_pos rfl]
      dsimp only
      rw [ih (i + 1) _ h]
      simp [DB.createNotification, broadcastRecords, Nat.add_assoc, Nat.add_comm]
      omega

theorem broadcastRecords_length (ty title msg : String) :
    ∀ (nid : Nat) (targets : List String),
      (broadcastRecords ty title msg nid targets).length = targets.length := by
  intro nid targets
  induction targets generalizing nid with
  | nil => rfl
  | cons u rest ih => simp [broadcastRecords, ih]

theorem broadcastRecords_cover (ty title msg : String) :
    ∀ (nid : Nat) (targets : List String), ∀ u ∈ targets,
      ∃ n ∈ broadcastRecords ty title msg nid targets,
        n.userId = u ∧ n.type = ty ∧ n.title = title ∧ n.message = msg ∧ n.isRead = false := by
  intro nid targets
  induction targets generalizing nid with
  | nil => intro u hu; cases hu
  | cons v rest ih =>
      intro u hu
      rcases List.mem_cons.mp hu with h | h
      · subst h
        exact ⟨_, List.mem_cons_self _ _, rfl, rfl, rfl, rfl, rfl⟩
      · obtain ⟨n, hn, hprops⟩ := ih (nid + 1) u h
        exact ⟨n, List.mem_cons_of_mem _ hn, hprops⟩

/-- C6 amended: an admin broadcast with no target list (absent or empty
`userIds`) fans out over every known user; when every insert succeeds, one
notification record is created per known user and the response reports that
count, but under partial failure the rows created before the failing insert
remain persisted while the operation replies with a generic 500 that carries
no success count (the counterexample exhibits this). -/
theorem broadcast_to_all_users (uid : String) (ty title msg : String)
    (oracle : Nat → Bool) (db : DB) (userIds : Option (List String))
    (hadmin : isAdminUser (db.getUser uid) = true)
    (hty : ty ≠ "") (htitle : title ≠ "") (hmsg : msg ≠ "")
    (hids : userIds = none ∨ userIds = some [])
    (hok : ∀ j, oracle j = true) :
    adminNotificationsHandler uid userIds ty title msg oracle db =
      (.ok db.users.length,
       { db with
         notifications := db.notifications ++
           broadcastRecords ty title msg db.nextNotificationId (db.users.map fun u => u.id),
         nextNotificationId := db.nextNotificationId + db.users.length }) ∧
    (broadcastRecords ty title msg db.nextNotificationId (db.users.map fun u => u.id)).length =
      db.users.length ∧
    (∀ u ∈ db.users,
      ∃ n ∈ broadcastRecords ty title msg db.nextNotificationId (db.users.map fun u => u.id),
        n.userId = u.id ∧ n.type = ty ∧ n.title = title ∧ n.message = msg ∧
          n.isRead = false) := by
  refine ⟨?_, ?_, ?_⟩
  · unfold adminNotificationsHandler
    rw [hadmin, if_pos rfl, if_neg (by simp [hty, htitle, hmsg])]
    rcases hids with h | h <;>
      · subst h
        dsimp only
        rw [broadcastLoop_all_ok ty title msg oracle _ 0 db hok]
        simp
  · rw [broadcastRecords_length]
    simp
  · intro u hu
    exact broadcastRecords_cover ty title msg db.nextNotificationId
      (db.users.map fun v => v.id) u.id (List.mem_map_of_mem _ hu)

theorem broadcast_to_all_users_witness :
    (isAdminUser (c6Db.getUser "adm") = true ∧ ("general" : String) ≠ "" ∧
      ("T" : String) ≠ "" ∧ ("M" : String) ≠ "") ∧
    adminNotificationsHandler "adm" none "general" "T" "M" (fun _ => true) c6Db =
      (.ok c6Db.users.length,
       { c6Db with
         notifications := c6Db.notifications ++
           broadcastRecords "general" "T" "M" c6Db.nextNotificationId
             (c6Db.users.map fun u => u.id),
         nextNotificationId := c6Db.nextNotificationId + c6Db.users.length }) :=
  ⟨⟨by decide, by decide, by decide, by decide⟩,
   (broadcast_to_all_users "adm" "general" "T" "M" (fun _ => true) c6Db none
     (by decide) (by decide) (by decide) (by decide) (Or.inl rfl) (fun _ => rfl)).1⟩

/-- C7: for an authenticated caller whose stored record lacks the admin flag,
each of the four admin read routes replies 403 after the single user lookup,
performing none of the underlying aggregation or listing queries. -/
theorem admin_routes_forbidden_for_non_admin (uid : String) (now : Int) (db : DB)
    (u : User) (hu : db.getUser uid = some u) (hna : u.isAdmin = false) :
    adminStatsHandler uid now db = (.forbidden, [.getUser uid]) ∧
    adminUsersHandler uid db = (.forbidden, [.getUser uid]) ∧
    adminApplicationsHandler uid db = (.forbidden, [.getUser uid]) ∧
    adminAnalyticsHandler uid db = (.forbidden, [.getUser uid]) := by
  have hadm : isAdminUser (db.getUser uid) = false := by
    rw [hu]
    exact hna
  exact ⟨by simp [adminStatsHandler, hadm], by simp [adminUsersHandler, hadm],
         by simp [adminApplicationsHandler, hadm], by simp [adminAnalyticsHandler, hadm]⟩

def c7Db : DB :=
  { users := [mkStatUser "u1"], universities := [], courses := [],
    applications := [], notifications := [], nextApplicationId := 1, nextNotificationId := 1 }

theorem admin_routes_forbidden_for_non_admin_witness :
    (c7Db.getUser "u1" = some (mkStatUser "u1") ∧ (mkStatUser "u1").isAdmin = false) ∧
    (adminStatsHandler "u1" 0 c7Db = (.forbidden, [.getUser "u1"]) ∧
    adminUsersHandler "u1" c7Db = (.forbidden, [.getUser "u1"]) ∧
    adminApplicationsHandler "u1" c7Db = (.forbidden, [.getUser "u1"]) ∧
    adminAnalyticsHandler "u1" c7Db = (.forbidden, [.getUser "u1"])) :=
  ⟨⟨by decide, by decide⟩,
   admin_routes_forbidden_for_non_admin "u1" 0 c7Db (mkStatUser "u1") (by decide) (by decide)⟩

def c8Course65 : Course :=
  { id := 1, name := "MSc Engineering Management", faculty := "Engineering",
    level := "Masters", universityId := 1, ieltsOverall := 6.5 }

def c8Course650001 : Course :=
  { id := 2, name := "MSc Data Science", faculty := "Science",
    level := "Masters", universityId := 1, ieltsOverall := 6.50001 }

def c8Course7 : Course :=
  { id := 3, name := "Master of Computer Science", faculty := "Science",
    level := "Masters", universityId := 1, ieltsOverall := 7 }

def c8Db : DB :=
  { users := [], universities := [], courses := [c8Course65, c8Course650001, c8Course7],
    applications := [], notifications := [], nextApplicationId := 1, nextNotificationId := 1 }

theorem parseDecimal_six_point_five : parseDecimal "6.5" = some 6.5 := by
  have h1 : parseDecimal "6.5" =
      some ((decDigitsVal ['6'] : ℚ) + (decDigitsVal ['5'] : ℚ) / (10 : ℚ) ^ (1 : ℕ)) := rfl
  rw [h1, show decDigitsVal ['6'] = 6 from rfl, show decDigitsVal ['5'] = 5 from rfl]
  norm_num

/-- Evaluation of the C8 scenario: filtering for "6.5" returns the 6.5-band
course only, excluding the 6.50001-band and 7-band courses. -/
theorem getCourses_ielts_filter_eval :
    getCourses c8Db { search := none, faculty := none, level := none, ieltsScore := some "6.5" } =
      [(c8Course65, none)] := by
  have h1 : courseFilterCond
      { search := none, faculty := none, level := none, ieltsScore := some "6.5" }
      c8Course65 = true := by
    simp [courseFilterCond, parseDecimal_six_point_five, c8Course65]
  have h2 : courseFilterCond
      { search := none, faculty := none, level := none, ieltsScore := some "6.5" }
      c8Course650001 = false := by
    simp [courseFilterCond, parseDecimal_six_point_five, c8Course650001]
    norm_num
  have h3 : courseFilterCond
      { search := none, faculty := none, level := none, ieltsScore := some "6.5" }
      c8Course7 = false := by
    simp [courseFilterCond, parseDecimal_six_point_five, c8Course7]
    norm_num
  unfold getCourses
  rw [show c8Db.courses = [c8Course65, c8Course650001, c8Course7] from rfl]
  have hf : List.filter
      (courseFilterCond { search := none, faculty := none, level := none, ieltsScore := some "6.5" })
      [c8Course65, c8Course650001, c8Course7] = [c8Course65] := by
    simp [List.filter, h1, h2, h3]
  rw [hf]
  rfl

def c9Db : DB :=
  { users := [mkStatUser "u1"], universities := [], courses := [],
    applications := [mkStatApp 1 "u1" "Submitted", mkStatApp 2 "u1" "Submitted"],
    notifications := [], nextApplicationId := 3, nextNotificationId := 1 }

/-- An instance for the C9 rounding counterexample: 40 users holding 23
applications in total. -/
def c9xDb : DB :=
  { users := rangeUsers 40, universities := [], courses := [],
    applications := rangeApps 23, notifications := [],
    nextApplicationId := 24, nextNotificationId := 1 }

/-- C9 counterexample: at 40 users and 23 applications the dashboard
endpoint returns `conversionRate = 57`, the `Math.round` of the binary64
value `57.49999999999999` of `(23 / 40) * 100`, not the claimed exact
`round(100 * 23 / 40) = 58`. -/
theorem dashboard_round_counterexample :
    (adminDashboardStatsHandler "anyone" c9xDb).1 =
      .ok { totalUsers := 40, totalApplications := 23, totalCourses := 0,
            totalUniversities := 0, newUsersThisWeek := 0,
            newApplicationsThisWeek := 0, conversionRate := 57 } ∧
    exactRoundPct 23 40 = 58 := by
  exact ⟨by decide, by decide⟩

/-- C9 amended: `GET /api/admin-dashboard-stats` replies identically for
every authenticated caller, admin or not (its storage trace contains no user
lookup, so no admin-flag check happens), with `newUsersThisWeek` and
`newApplicationsThisWeek` fixed at 0 and a conversion rate that is
`Math.round` of the binary64 value of `(totalApplications / totalUsers) *
100` — counting applications, not distinct applicants, and differing from
the exact `round(100 * a / b)` at e.g. 23 of 40; on one user with two
applications it yields 200 where the `/api/admin/stats` formula yields 100,
so the two formulas differ. -/
theorem dashboard_stats_no_admin_check (uid : String) (db : DB) :
    adminDashboardStatsHandler uid db =
      (.ok { totalUsers := db.users.length
             totalApplications := db.applications.length
             totalCourses := db.courses.length
             totalUniversities := db.universities.length
             newUsersThisWeek := 0
             newApplicationsThisWeek := 0
             conversionRate :=
               if db.users.length > 0 then
                 jsRoundPct db.applications.length db.users.length
               else 0 },
       [.getUsers, .getAllApplications, .getCourses, .getUniversities]) ∧
    adminDashboardStatsHandler "anyone" c9Db =
      (.ok { totalUsers := 1, totalApplications := 2, totalCourses := 0,
             totalUniversities := 0, newUsersThisWeek := 0,
             newApplicationsThisWeek := 0, conversionRate := 200 },
       [.getUsers, .getAllApplications, .getCourses, .getUniversities]) ∧
    (computeStats 0 c9Db.users c9Db.applications c9Db.courses c9Db.universities).conversionRate
      = 100 := by
  exact ⟨rfl, by decide, by decide⟩
